import Mathlib

/-!
Verification development for the auto-merge-pr GitHub action (src/main.ts).

The source is a single TypeScript file; it is shallowly embedded here:
remote (octokit) calls become an explicit `Remote` oracle of `Except`-valued
functions, the run's mutable state (branch-fact cache, emitted diagnostics,
issued merge calls, performed branch lookups) becomes an explicit `St` record
threaded through every function, and thrown exceptions become the `Res.err`
constructor carrying the state reached so far.  JavaScript truthiness of the
optional fields used by the source (`merged_at`, `draft`, `auto_merge`,
optional chaining with `?? ''`) is modelled explicitly at each use site.
-/

/-! ## Data model (fields of the octokit payloads that src/main.ts reads) -/

structure Label where
  name : String
deriving DecidableEq, Repr

structure User where
  login : Option String
deriving DecidableEq, Repr

structure Repo where
  html_url : String
deriving DecidableEq, Repr

structure BaseRef where
  repo : Repo
  ref : String
deriving DecidableEq, Repr

structure HeadRef where
  repo : Option Repo
  sha : String
deriving DecidableEq, Repr

/-- A pull-request snapshot: exactly the fields `processPr` reads.  A snapshot
coming from the list endpoint has `mergeable = none` (field absent); a
snapshot from the single-PR endpoint carries `some true / some false`
(`none` also models an explicit `null`, which the source treats identically
to absent: only `=== false` rejects).  `auto_merge` is the platform's
auto-merge object; only its presence is inspected, so it is `Option Unit`.
`draft` is an optional boolean in the API; the source tests its truthiness. -/
structure PullRequest where
  number : Nat
  base : BaseRef
  head : HeadRef
  merged_at : Option String
  auto_merge : Option Unit
  draft : Option Bool
  labels : List Label
  user : Option User
  mergeable : Option Bool
deriving DecidableEq, Repr

structure RequiredStatusChecks where
  checks : Option (List String)
deriving DecidableEq, Repr

structure BranchProtection where
  enabled : Bool
  required_status_checks : Option RequiredStatusChecks
deriving DecidableEq, Repr

structure Branch where
  protection : BranchProtection
deriving DecidableEq, Repr

/-! ## Configuration (the four inputs parsed at startup) -/

/-- One character of the separator class of the split regex of the input
parsing: carriage return, line feed, comma or semicolon. -/
def isInputSeparator (c : Char) : Bool :=
  c.toNat = 13 || c.toNat = 10 || c.toNat = 44 || c.toNat = 59

/-- ASCII lower-casing of one character, as `toLowerCase` acts on the ASCII
range (all strings the policy compares are ASCII). -/
def asciiLowerChar (c : Char) : Char :=
  if 65 ≤ c.toNat ∧ c.toNat ≤ 90 then Char.ofNat (c.toNat + 32) else c

/-- ASCII lower-casing of a string. -/
def asciiLower (s : String) : String :=
  String.mk (s.data.map asciiLowerChar)

/-- Split a character list at every character satisfying `sep`, keeping empty
pieces (they are dropped later by the length filter, which makes this
equivalent to splitting on maximal separator runs as the regex does). -/
def splitChars (sep : Char → Bool) : List Char → List (List Char)
  | [] => [[]]
  | c :: cs =>
    match splitChars sep cs with
    | [] => [[]]
    | piece :: rest => if sep c then [] :: piece :: rest else (c :: piece) :: rest

/-- The whitespace class that `trim` removes on the inputs in scope. -/
def isTrimmedWhitespace (c : Char) : Bool :=
  c.toNat = 32 || c.toNat = 9 || c.toNat = 10 || c.toNat = 13

/-- `trim`: drop leading and trailing whitespace. -/
def trimChars (l : List Char) : List Char :=
  ((l.dropWhile isTrimmedWhitespace).reverse.dropWhile isTrimmedWhitespace).reverse

/-- The input-list parsing of `requiredLabels` and `authors`:
split on `[\r\n,;]+`, trim each piece, lower-case it, drop empties. -/
def parseInputList (s : String) : List String :=
  ((splitChars isInputSeparator s.data).map
      (fun piece => asciiLower (String.mk (trimChars piece)))).filter
    (fun it => it.length ≠ 0)

/-- The run's immutable configuration, with `requiredLabels` and `authors`
already in parsed (trimmed, lower-cased, empties-dropped) form. -/
structure Config where
  requiredLabels : List String
  authors : List String
  preferredMergeOption : String
  dryRun : Bool
deriving DecidableEq, Repr

/-! ## Run state, effects and results -/

inductive DenyReason where
  | differentRepos
  | alreadyMerged
  | autoMergeActivated
  | draft
  | missingRequiredLabels
  | authorNotAllowed
  | notMergeable
  | noRequiredChecks
deriving DecidableEq, Repr

inductive Verdict where
  | approved
  | denied (reason : DenyReason)
deriving DecidableEq, Repr

/-- The arguments of an `octokit.pulls.merge` call:
PR number, expected head sha, optional merge method. -/
structure MergeCall where
  pull_number : Nat
  sha : String
  merge_method : Option String
deriving DecidableEq, Repr

/-- The observable diagnostics: `core.group` headers, `core.warning` skip /
merge lines (carried structurally: the reason constructor identifies which
predicate the source's message names), the `core.debug` lines of the event
handlers, and the `core.setFailed` call of the top-level catch. -/
inductive LogEntry where
  | group (prNumber : Nat)
  | skip (prNumber : Nat) (reason : DenyReason)
  | merging (prNumber : Nat)
  | debugSkipSelfCheckRun (id : Nat)
  | debugSkipCheckRunAction (action : String)
  | debugSkipCheckRunConclusion (conclusion : Option String)
  | debugSkipDeploymentState (state : String)
  | unsupportedEvent (eventName : String)
  | setFailed (message : String)
deriving DecidableEq, Repr

/-- The run's mutable state: the branch-fact cache (an association list
standing for the `Map`), the diagnostics emitted so far, the merge calls
issued so far, and the remote branch lookups performed so far. -/
structure St where
  cache : List (String × Bool)
  logs : List LogEntry
  mergeCalls : List MergeCall
  branchLookups : List String
deriving DecidableEq, Repr

def initSt : St := ⟨[], [], [], []⟩

def pushLog (s : St) (entry : LogEntry) : St :=
  { s with logs := s.logs ++ [entry] }

/-- Result of a stateful computation: normal return or a thrown error, each
carrying the state (effects) reached at that point. -/
inductive Res (α : Type) where
  | ok (value : α) (state : St)
  | err (message : String) (state : St)
deriving DecidableEq, Repr

def Res.state {α : Type} : Res α → St
  | .ok _ s => s
  | .err _ s => s

def resultLogs (r : Res Unit) : List LogEntry := r.state.logs

def resultMergeCalls (r : Res Unit) : List MergeCall := r.state.mergeCalls

/-- PR numbers whose per-PR pipeline was entered (the `core.group` headers). -/
def processedPrNumbers (r : Res Unit) : List Nat :=
  r.state.logs.filterMap (fun e =>
    match e with
    | .group n => some n
    | _ => none)

/-- The remote (octokit) interface: each operation either returns data or
fails (network/auth/rate-limit/unexpected API error).  The open-PR listing is
a paginated sequence; each page may itself fail when fetched. -/
structure Remote where
  getPullRequest : Nat → Except String PullRequest
  getBranch : String → Except String Branch
  mergePullRequest : MergeCall → Except String Unit
  pullsListPages : List (Except String (List PullRequest))

/-! ## Branch-protection fact cache (doesBranchHaveRequiredChecks) -/

def lookupCache : List (String × Bool) → String → Option Bool
  | [], _ => none
  | (k, v) :: rest, name => if k = name then some v else lookupCache rest name

/-- The fact computed from a fetched branch:
`!!(branch.protection.enabled && branch.protection?.required_status_checks?.checks?.length)`. -/
def branchHasRequiredChecks (b : Branch) : Bool :=
  b.protection.enabled &&
    ((b.protection.required_status_checks.bind RequiredStatusChecks.checks).getD []).length != 0

/-- `doesBranchHaveRequiredChecks`: on a cache hit return the stored value
with no remote call; on a miss fetch the branch (recording the lookup),
compute the fact, store it in the cache and return it. -/
def doesBranchHaveRequiredChecks (remote : Remote) (branchName : String) (s : St) : Res Bool :=
  match lookupCache s.cache branchName with
  | some v => .ok v s
  | none =>
    match remote.getBranch branchName with
    | .error e => .err e { s with branchLookups := s.branchLookups ++ [branchName] }
    | .ok branch =>
      let hasRequiredChecks := branchHasRequiredChecks branch
      .ok hasRequiredChecks
        { s with
          cache := (branchName, hasRequiredChecks) :: s.cache
          branchLookups := s.branchLookups ++ [branchName] }

/-! ## Eligibility evaluation and merge (processPr) -/

/-- `pr.head.repo?.html_url ?? ''`. -/
def headRepoUrl (pr : PullRequest) : String :=
  (pr.head.repo.map Repo.html_url).getD ""

/-- JS truthiness of an optional string field (`pr.merged_at`). -/
def strTruthy : Option String → Bool
  | none => false
  | some s => s != ""

/-- The label predicate of `processPr`:
`requiredLabels.every(label => pr.labels.some(it => it.name.toLowerCase() === label))`. -/
def hasAllRequiredLabels (required : List String) (labels : List Label) : Bool :=
  required.all (fun label => labels.any (fun it => asciiLower it.name == label))

/-- `pr.user?.login?.toLowerCase() ?? ''`. -/
def authorLogin (pr : PullRequest) : String :=
  ((pr.user.bind User.login).map asciiLower).getD ""

/-- The merge-call arguments built by `processPr`:
`merge_method` is the configured option if non-empty, else absent. -/
def mergeCallFor (cfg : Config) (prNumber : Nat) (pr : PullRequest) : MergeCall :=
  { pull_number := prNumber
    sha := pr.head.sha
    merge_method :=
      if cfg.preferredMergeOption.length ≠ 0 then some cfg.preferredMergeOption else none }

/-- The pure content of the eligibility decision of `processPr`: the eight
admission predicates in source order, short-circuiting on the first failure,
with the base branch's required-checks fact supplied as `hasChecks`. -/
def verdictOf (cfg : Config) (hasChecks : Bool) (pr : PullRequest) : Verdict :=
  if pr.base.repo.html_url ≠ headRepoUrl pr then .denied .differentRepos
  else if strTruthy pr.merged_at then .denied .alreadyMerged
  else if pr.auto_merge.isSome then .denied .autoMergeActivated
  else if pr.draft.getD false then .denied .draft
  else if cfg.requiredLabels.length ≠ 0 ∧
      hasAllRequiredLabels cfg.requiredLabels pr.labels = false then
    .denied .missingRequiredLabels
  else if cfg.authors.length ≠ 0 ∧ cfg.authors.contains (authorLogin pr) = false then
    .denied .authorNotAllowed
  else if pr.mergeable = some false then .denied .notMergeable
  else if !hasChecks then .denied .noRequiredChecks
  else .approved

/-- `processPr(prParam)`: resolve the PR (fetching it when given a number),
then run the eight admission predicates in order, emitting the skip
diagnostic of the first failing one, and on approval emit the merging
diagnostic and, unless dry-run, issue the merge call. -/
def processPr (cfg : Config) (remote : Remote) (prParam : PullRequest ⊕ Nat) (s0 : St) :
    Res Unit :=
  let prNumber := match prParam with | .inl pr => pr.number | .inr n => n
  let s := pushLog s0 (.group prNumber)
  match (match prParam with
         | .inl pr => Except.ok pr
         | .inr n => remote.getPullRequest n) with
  | .error e => .err e s
  | .ok pr =>
    if pr.base.repo.html_url ≠ headRepoUrl pr then
      .ok () (pushLog s (.skip prNumber .differentRepos))
    else if strTruthy pr.merged_at then
      .ok () (pushLog s (.skip prNumber .alreadyMerged))
    else if pr.auto_merge.isSome then
      .ok () (pushLog s (.skip prNumber .autoMergeActivated))
    else if pr.draft.getD false then
      .ok () (pushLog s (.skip prNumber .draft))
    else if cfg.requiredLabels.length ≠ 0 ∧
        hasAllRequiredLabels cfg.requiredLabels pr.labels = false then
      .ok () (pushLog s (.skip prNumber .missingRequiredLabels))
    else if cfg.authors.length ≠ 0 ∧ cfg.authors.contains (authorLogin pr) = false then
      .ok () (pushLog s (.skip prNumber .authorNotAllowed))
    else if pr.mergeable = some false then
      .ok () (pushLog s (.skip prNumber .notMergeable))
    else
      match doesBranchHaveRequiredChecks remote pr.base.ref s with
      | .err e s2 => .err e s2
      | .ok hasChecks s2 =>
        if !hasChecks then
          .ok () (pushLog s2 (.skip prNumber .noRequiredChecks))
        else
          let s3 := pushLog s2 (.merging prNumber)
          if cfg.dryRun then .ok () s3
          else
            let call := mergeCallFor cfg prNumber pr
            let s4 := { s3 with mergeCalls := s3.mergeCalls ++ [call] }
            match remote.mergePullRequest call with
            | .error e => .err e s4
            | .ok _ => .ok () s4

/-! ## Bulk driver and event handlers -/

def processPrs (cfg : Config) (remote : Remote) : List PullRequest → St → Res Unit
  | [], s => .ok () s
  | pr :: rest, s =>
    match processPr cfg remote (Sum.inl pr) s with
    | .err e s2 => .err e s2
    | .ok _ s2 => processPrs cfg remote rest s2

def processPages (cfg : Config) (remote : Remote) :
    List (Except String (List PullRequest)) → St → Res Unit
  | [], s => .ok () s
  | page :: rest, s =>
    match page with
    | .error e => .err e s
    | .ok prs =>
      match processPrs cfg remote prs s with
      | .err e s2 => .err e s2
      | .ok _ s2 => processPages cfg remote rest s2

/-- `processAllPrs()`: iterate the paginated open-PR listing, feeding each PR
of each page through `processPr`. -/
def processAllPrs (cfg : Config) (remote : Remote) (s : St) : Res Unit :=
  processPages cfg remote remote.pullsListPages s

structure CheckRunPr where
  number : Nat
deriving DecidableEq, Repr

structure CheckRun where
  id : Nat
  conclusion : Option String
  pull_requests : List CheckRunPr
deriving DecidableEq, Repr

structure CheckRunCompleted where
  action : String
  check_run : CheckRun
deriving DecidableEq, Repr

structure DeploymentStatus where
  state : String
deriving DecidableEq, Repr

structure DeploymentStatusCreated where
  deployment_status : DeploymentStatus
deriving DecidableEq, Repr

def processPrNumbers (cfg : Config) (remote : Remote) : List CheckRunPr → St → Res Unit
  | [], s => .ok () s
  | p :: rest, s =>
    match processPr cfg remote (Sum.inr p.number) s with
    | .err e s2 => .err e s2
    | .ok _ s2 => processPrNumbers cfg remote rest s2

/-- `processCheckRunCompletedEvent`: skip the run's own check, skip actions
other than completed, skip conclusions other than success/skipped; otherwise
process each PR number the check-run payload associates with. -/
def processCheckRunCompletedEvent (cfg : Config) (remote : Remote) (runId : Nat)
    (event : CheckRunCompleted) (s : St) : Res Unit :=
  if event.check_run.id = runId then
    .ok () (pushLog s (.debugSkipSelfCheckRun event.check_run.id))
  else if event.action ≠ "completed" then
    .ok () (pushLog s (.debugSkipCheckRunAction event.action))
  else if ¬ (["success", "skipped"].contains (event.check_run.conclusion.getD "")) then
    .ok () (pushLog s (.debugSkipCheckRunConclusion event.check_run.conclusion))
  else
    processPrNumbers cfg remote event.check_run.pull_requests s

/-- `processDeploymentStatusCreated`: only a success state triggers the bulk
re-scan; any other state is a diagnostic no-op. -/
def processDeploymentStatusCreated (cfg : Config) (remote : Remote)
    (event : DeploymentStatusCreated) (s : St) : Res Unit :=
  if event.deployment_status.state ≠ "success" then
    .ok () (pushLog s (.debugSkipDeploymentState event.deployment_status.state))
  else
    processAllPrs cfg remote s

/-! ## Event router (run) -/

/-- The incoming event: the source dispatches on `context.eventName` and
casts `context.payload` in the check-run and deployment-status branches;
here each recognised event name is a constructor carrying the payload the
corresponding branch reads. -/
inductive Event where
  | branch_protection_rule
  | check_run (payload : CheckRunCompleted)
  | deployment_status (payload : DeploymentStatusCreated)
  | pull_request
  | pull_request_review
  | push
  | schedule
  | status
  | workflow_dispatch
  | other (eventName : String)
deriving DecidableEq, Repr

/-- The dispatch of `run()`'s if/else chain over `context.eventName`
(the body of the try block). -/
def runInner (cfg : Config) (remote : Remote) (runId : Nat) (ev : Event) (s : St) : Res Unit :=
  match ev with
  | .branch_protection_rule => processAllPrs cfg remote s
  | .check_run payload => processCheckRunCompletedEvent cfg remote runId payload s
  | .deployment_status payload => processDeploymentStatusCreated cfg remote payload s
  | .pull_request => .ok () (pushLog s (.unsupportedEvent "pull_request"))
  | .pull_request_review => .ok () (pushLog s (.unsupportedEvent "pull_request_review"))
  | .push => processAllPrs cfg remote s
  | .schedule => processAllPrs cfg remote s
  | .status => .ok () (pushLog s (.unsupportedEvent "status"))
  | .workflow_dispatch => processAllPrs cfg remote s
  | .other eventName => .ok () (pushLog s (.unsupportedEvent eventName))

/-- `run()`: the dispatch wrapped in the catch that reports a failure
(`core.setFailed`) and rethrows. -/
def run (cfg : Config) (remote : Remote) (runId : Nat) (ev : Event) (s : St) : Res Unit :=
  match runInner cfg remote runId ev s with
  | .ok v s2 => .ok v s2
  | .err e s2 => .err e (pushLog s2 (.setFailed e))

/-! ## The admission predicates as an ordered list (for the ordering claims) -/

/-- Failure condition of each admission predicate, read off the corresponding
`if` of `processPr`. -/
def predFails (cfg : Config) (hasChecks : Bool) (pr : PullRequest) : DenyReason → Bool
  | .differentRepos => decide (pr.base.repo.html_url ≠ headRepoUrl pr)
  | .alreadyMerged => strTruthy pr.merged_at
  | .autoMergeActivated => pr.auto_merge.isSome
  | .draft => pr.draft.getD false
  | .missingRequiredLabels =>
      decide (cfg.requiredLabels.length ≠ 0 ∧
        hasAllRequiredLabels cfg.requiredLabels pr.labels = false)
  | .authorNotAllowed =>
      decide (cfg.authors.length ≠ 0 ∧ cfg.authors.contains (authorLogin pr) = false)
  | .notMergeable => decide (pr.mergeable = some false)
  | .noRequiredChecks => !hasChecks

/-- The source order of the eight admission predicates. -/
def denyOrder : List DenyReason :=
  [.differentRepos, .alreadyMerged, .autoMergeActivated, .draft,
   .missingRequiredLabels, .authorNotAllowed, .notMergeable, .noRequiredChecks]

/-- The earliest failing predicate in source order, if any. -/
def firstFailure (cfg : Config) (hasChecks : Bool) (pr : PullRequest) : Option DenyReason :=
  denyOrder.find? (predFails cfg hasChecks pr)

/-! ## The dispatch table as the spec states it (for the router claim) -/

/-- The failure handling of the spec: an unrecovered error is reported once
(`setFailed`) and the run's outcome stays failed. -/
def withFailureSignal (r : Res Unit) : Res Unit :=
  match r with
  | .ok v s => .ok v s
  | .err e s => .err e (pushLog s (.setFailed e))

/-- The Event Router dispatch table written from the spec (section 4.5):
bulk re-scan for protection-rule / push / schedule / manual-dispatch events
and for deployment-status in success state; the single-PR pipeline over the
associated PR numbers for a completed check-run event that is not this run's
own check and whose conclusion is success or skipped; a diagnostic no-op for
everything else.  To be compared with `run`, which embeds the source. -/
def routerSpec (cfg : Config) (remote : Remote) (runId : Nat) (ev : Event) (s : St) :
    Res Unit :=
  withFailureSignal
    (match ev with
     | .branch_protection_rule => processAllPrs cfg remote s
     | .push => processAllPrs cfg remote s
     | .schedule => processAllPrs cfg remote s
     | .workflow_dispatch => processAllPrs cfg remote s
     | .deployment_status payload =>
       if payload.deployment_status.state = "success" then processAllPrs cfg remote s
       else .ok () (pushLog s (.debugSkipDeploymentState payload.deployment_status.state))
     | .check_run payload =>
       if payload.check_run.id ≠ runId ∧ payload.action = "completed" ∧
           (["success", "skipped"].contains (payload.check_run.conclusion.getD "")) = true then
         processPrNumbers cfg remote payload.check_run.pull_requests s
       else if payload.check_run.id = runId then
         .ok () (pushLog s (.debugSkipSelfCheckRun payload.check_run.id))
       else if payload.action ≠ "completed" then
         .ok () (pushLog s (.debugSkipCheckRunAction payload.action))
       else
         .ok () (pushLog s (.debugSkipCheckRunConclusion payload.check_run.conclusion))
     | .pull_request => .ok () (pushLog s (.unsupportedEvent "pull_request"))
     | .pull_request_review => .ok () (pushLog s (.unsupportedEvent "pull_request_review"))
     | .status => .ok () (pushLog s (.unsupportedEvent "status"))
     | .other eventName => .ok () (pushLog s (.unsupportedEvent eventName)))

/-! ## Concrete fixtures used by witnesses and counterexamples -/

def repoMain : Repo := ⟨"https://example.com/owner/repo"⟩

def branchProtected : Branch := ⟨⟨true, some ⟨some ["build"]⟩⟩⟩

def branchUnprotected : Branch := ⟨⟨false, none⟩⟩

/-- A PR satisfying all eight predicates under `cfgDefault` and a protected
base branch. -/
def prEligible : PullRequest :=
  { number := 1
    base := ⟨repoMain, "main"⟩
    head := ⟨some repoMain, "sha1"⟩
    merged_at := none
    auto_merge := none
    draft := some false
    labels := [⟨"Ready"⟩]
    user := some ⟨some "Alice"⟩
    mergeable := some true }

/-- A PR violating several predicates at once: already merged, auto-merge
active, draft, and explicitly unmergeable. -/
def prMulti : PullRequest :=
  { number := 7
    base := ⟨repoMain, "main"⟩
    head := ⟨some repoMain, "sha7"⟩
    merged_at := some "2024-01-01T00:00:00Z"
    auto_merge := some ()
    draft := some true
    labels := []
    user := some ⟨some "Alice"⟩
    mergeable := some false }

/-- A degenerate PR with an absent head repository and an empty base
repository identity; every other predicate passes under `cfgDefault`. -/
def prNoBaseUrl : PullRequest :=
  { number := 9
    base := ⟨⟨""⟩, "main"⟩
    head := ⟨none, "sha9"⟩
    merged_at := none
    auto_merge := none
    draft := some false
    labels := []
    user := some ⟨some "Alice"⟩
    mergeable := none }

def remoteHappy : Remote :=
  ⟨fun _ => .ok prEligible, fun _ => .ok branchProtected, fun _ => .ok (),
   [.ok [prEligible]]⟩

def remoteFailing : Remote :=
  ⟨fun _ => .error "remote failure", fun _ => .error "remote failure",
   fun _ => .error "remote failure", [.error "remote failure"]⟩

def cfgDefault : Config := ⟨[], [], "", false⟩

def cfgDryRun : Config := ⟨[], [], "squash", true⟩

/-- A remote that succeeds for branch "main" and fails every other call. -/
def remoteMixed : Remote :=
  ⟨fun _ => .error "remote failure",
   fun name => if name = "main" then .ok branchProtected else .error "remote failure",
   fun _ => .error "remote failure",
   [.error "remote failure"]⟩

/-! ## Helper lemmas -/

theorem doesBranch_miss {remote : Remote} {branchName : String} {s : St} {b : Branch}
    (hmiss : lookupCache s.cache branchName = none)
    (hb : remote.getBranch branchName = Except.ok b) :
    doesBranchHaveRequiredChecks remote branchName s =
      .ok (branchHasRequiredChecks b)
        { s with
          cache := (branchName, branchHasRequiredChecks b) :: s.cache
          branchLookups := s.branchLookups ++ [branchName] } := by
  simp [doesBranchHaveRequiredChecks, hmiss, hb]

theorem doesBranch_hit {remote : Remote} {branchName : String} {s : St} {v : Bool}
    (hhit : lookupCache s.cache branchName = some v) :
    doesBranchHaveRequiredChecks remote branchName s = .ok v s := by
  simp [doesBranchHaveRequiredChecks, hhit]

theorem verdictOf_c1 {cfg : Config} {hc : Bool} {pr : PullRequest}
    (h1 : pr.base.repo.html_url ≠ headRepoUrl pr) :
    verdictOf cfg hc pr = .denied .differentRepos := by
  unfold verdictOf; rw [if_pos h1]

theorem verdictOf_c2 {cfg : Config} {hc : Bool} {pr : PullRequest}
    (h1 : ¬pr.base.repo.html_url ≠ headRepoUrl pr) (h2 : strTruthy pr.merged_at = true) :
    verdictOf cfg hc pr = .denied .alreadyMerged := by
  unfold verdictOf; rw [if_neg h1, if_pos h2]

theorem verdictOf_c3 {cfg : Config} {hc : Bool} {pr : PullRequest}
    (h1 : ¬pr.base.repo.html_url ≠ headRepoUrl pr) (h2 : ¬strTruthy pr.merged_at = true)
    (h3 : pr.auto_merge.isSome = true) :
    verdictOf cfg hc pr = .denied .autoMergeActivated := by
  unfold verdictOf; rw [if_neg h1, if_neg h2, if_pos h3]

theorem verdictOf_c4 {cfg : Config} {hc : Bool} {pr : PullRequest}
    (h1 : ¬pr.base.repo.html_url ≠ headRepoUrl pr) (h2 : ¬strTruthy pr.merged_at = true)
    (h3 : ¬pr.auto_merge.isSome = true) (h4 : pr.draft.getD false = true) :
    verdictOf cfg hc pr = .denied .draft := by
  unfold verdictOf; rw [if_neg h1, if_neg h2, if_neg h3, if_pos h4]

theorem verdictOf_c5 {cfg : Config} {hc : Bool} {pr : PullRequest}
    (h1 : ¬pr.base.repo.html_url ≠ headRepoUrl pr) (h2 : ¬strTruthy pr.merged_at = true)
    (h3 : ¬pr.auto_merge.isSome = true) (h4 : ¬pr.draft.getD false = true)
    (h5 : cfg.requiredLabels.length ≠ 0 ∧
      hasAllRequiredLabels cfg.requiredLabels pr.labels = false) :
    verdictOf cfg hc pr = .denied .missingRequiredLabels := by
  unfold verdictOf; rw [if_neg h1, if_neg h2, if_neg h3, if_neg h4, if_pos h5]

theorem verdictOf_c6 {cfg : Config} {hc : Bool} {pr : PullRequest}
    (h1 : ¬pr.base.repo.html_url ≠ headRepoUrl pr) (h2 : ¬strTruthy pr.merged_at = true)
    (h3 : ¬pr.auto_merge.isSome = true) (h4 : ¬pr.draft.getD false = true)
    (h5 : ¬(cfg.requiredLabels.length ≠ 0 ∧
      hasAllRequiredLabels cfg.requiredLabels pr.labels = false))
    (h6 : cfg.authors.length ≠ 0 ∧ cfg.authors.contains (authorLogin pr) = false) :
    verdictOf cfg hc pr = .denied .authorNotAllowed := by
  unfold verdictOf; rw [if_neg h1, if_neg h2, if_neg h3, if_neg h4, if_neg h5, if_pos h6]

theorem verdictOf_c7 {cfg : Config} {hc : Bool} {pr : PullRequest}
    (h1 : ¬pr.base.repo.html_url ≠ headRepoUrl pr) (h2 : ¬strTruthy pr.merged_at = true)
    (h3 : ¬pr.auto_merge.isSome = true) (h4 : ¬pr.draft.getD false = true)
    (h5 : ¬(cfg.requiredLabels.length ≠ 0 ∧
      hasAllRequiredLabels cfg.requiredLabels pr.labels = false))
    (h6 : ¬(cfg.authors.length ≠ 0 ∧ cfg.authors.contains (authorLogin pr) = false))
    (h7 : pr.mergeable = some false) :
    verdictOf cfg hc pr = .denied .notMergeable := by
  unfold verdictOf
  rw [if_neg h1, if_neg h2, if_neg h3, if_neg h4, if_neg h5, if_neg h6, if_pos h7]

theorem verdictOf_c8 {cfg : Config} {hc : Bool} {pr : PullRequest}
    (h1 : ¬pr.base.repo.html_url ≠ headRepoUrl pr) (h2 : ¬strTruthy pr.merged_at = true)
    (h3 : ¬pr.auto_merge.isSome = true) (h4 : ¬pr.draft.getD false = true)
    (h5 : ¬(cfg.requiredLabels.length ≠ 0 ∧
      hasAllRequiredLabels cfg.requiredLabels pr.labels = false))
    (h6 : ¬(cfg.authors.length ≠ 0 ∧ cfg.authors.contains (authorLogin pr) = false))
    (h7 : ¬pr.mergeable = some false) (h8 : (!hc) = true) :
    verdictOf cfg hc pr = .denied .noRequiredChecks := by
  unfold verdictOf
  rw [if_neg h1, if_neg h2, if_neg h3, if_neg h4, if_neg h5, if_neg h6, if_neg h7, if_pos h8]

theorem verdictOf_approved {cfg : Config} {hc : Bool} {pr : PullRequest}
    (h1 : ¬pr.base.repo.html_url ≠ headRepoUrl pr) (h2 : ¬strTruthy pr.merged_at = true)
    (h3 : ¬pr.auto_merge.isSome = true) (h4 : ¬pr.draft.getD false = true)
    (h5 : ¬(cfg.requiredLabels.length ≠ 0 ∧
      hasAllRequiredLabels cfg.requiredLabels pr.labels = false))
    (h6 : ¬(cfg.authors.length ≠ 0 ∧ cfg.authors.contains (authorLogin pr) = false))
    (h7 : ¬pr.mergeable = some false) (h8 : ¬(!hc) = true) :
    verdictOf cfg hc pr = .approved := by
  unfold verdictOf
  rw [if_neg h1, if_neg h2, if_neg h3, if_neg h4, if_neg h5, if_neg h6, if_neg h7, if_neg h8]

theorem processPr_logs (cfg : Config) (remote : Remote) (pr : PullRequest) (b : Branch)
    (hb : remote.getBranch pr.base.ref = Except.ok b) :
    resultLogs (processPr cfg remote (Sum.inl pr) initSt) =
      LogEntry.group pr.number ::
        (match verdictOf cfg (branchHasRequiredChecks b) pr with
         | .denied r => [LogEntry.skip pr.number r]
         | .approved => [LogEntry.merging pr.number]) := by
  simp only [processPr]
  split_ifs with h1 h2 h3 h4 h5 h6 h7 hd
  · rw [verdictOf_c1 h1]; rfl
  · rw [verdictOf_c2 h1 h2]; rfl
  · rw [verdictOf_c3 h1 h2 h3]; rfl
  · rw [verdictOf_c4 h1 h2 h3 h4]; rfl
  · rw [verdictOf_c5 h1 h2 h3 h4 h5]; rfl
  · rw [verdictOf_c6 h1 h2 h3 h4 h5 h6]; rfl
  · rw [verdictOf_c7 h1 h2 h3 h4 h5 h6 h7]; rfl
  · rw [doesBranch_miss
      (show lookupCache (pushLog initSt (LogEntry.group pr.number)).cache pr.base.ref = none
        from rfl) hb]
    cases hbc : branchHasRequiredChecks b with
    | false =>
      rw [verdictOf_c8 h1 h2 h3 h4 h5 h6 h7 (show (!false) = true from rfl)]
      simp [resultLogs, Res.state, pushLog, initSt]
    | true =>
      rw [verdictOf_approved h1 h2 h3 h4 h5 h6 h7 (by simp)]
      simp [resultLogs, Res.state, pushLog, initSt]
  · rw [doesBranch_miss
      (show lookupCache (pushLog initSt (LogEntry.group pr.number)).cache pr.base.ref = none
        from rfl) hb]
    cases hbc : branchHasRequiredChecks b with
    | false =>
      rw [verdictOf_c8 h1 h2 h3 h4 h5 h6 h7 (show (!false) = true from rfl)]
      simp [resultLogs, Res.state, pushLog, initSt]
    | true =>
      rw [verdictOf_approved h1 h2 h3 h4 h5 h6 h7 (by simp)]
      cases hmr : remote.mergePullRequest (mergeCallFor cfg pr.number pr) <;>
        simp [resultLogs, Res.state, pushLog, initSt, hmr]

theorem verdictOf_eq_firstFailure (cfg : Config) (hc : Bool) (pr : PullRequest) :
    verdictOf cfg hc pr =
      match firstFailure cfg hc pr with
      | some r => Verdict.denied r
      | none => Verdict.approved := by
  simp only [verdictOf, firstFailure, denyOrder, List.find?, predFails]
  split_ifs with h1 h2 h3 h4 h5 h6 h7 h8 <;>
    by_cases hr : cfg.requiredLabels = [] <;>
    by_cases hl : hasAllRequiredLabels cfg.requiredLabels pr.labels = true <;>
    by_cases ha : cfg.authors = [] <;>
    by_cases hm : authorLogin pr ∈ cfg.authors <;>
    simp_all

/-! ## Claim C1 -/

/-- Claim C1: the eligibility evaluation applies the eight admission
predicates in exactly the source order (same-repo, not merged, no auto-merge,
not draft, required labels, allowed author, mergeability not explicitly
false, base branch has required checks), short-circuits at the first failing
predicate, and the emitted denial diagnostic names exactly that earliest
failing predicate: the verdict equals the first failure of the ordered
predicate list, and `processPr` logs exactly the skip entry of that verdict
(or the merging entry when approved). -/
theorem c1_predicate_order_short_circuit (cfg : Config) (remote : Remote)
    (pr : PullRequest) (b : Branch)
    (hb : remote.getBranch pr.base.ref = Except.ok b) :
    (verdictOf cfg (branchHasRequiredChecks b) pr =
      match firstFailure cfg (branchHasRequiredChecks b) pr with
      | some r => Verdict.denied r
      | none => Verdict.approved)
    ∧ resultLogs (processPr cfg remote (Sum.inl pr) initSt) =
        LogEntry.group pr.number ::
          (match verdictOf cfg (branchHasRequiredChecks b) pr with
           | .denied r => [LogEntry.skip pr.number r]
           | .approved => [LogEntry.merging pr.number]) :=
  ⟨verdictOf_eq_firstFailure cfg (branchHasRequiredChecks b) pr,
   processPr_logs cfg remote pr b hb⟩

/-- Witness for C1 at a concrete input: `prMulti` violates the merged,
auto-merge, draft and mergeability predicates simultaneously and is denied
for the earliest of them in source order, already-merged. -/
theorem c1_predicate_order_short_circuit_witness :
    verdictOf cfgDefault (branchHasRequiredChecks branchProtected) prMulti =
        Verdict.denied DenyReason.alreadyMerged
    ∧ resultLogs (processPr cfgDefault
        ⟨fun _ => .ok prMulti, fun _ => .ok branchProtected, fun _ => .ok (), []⟩
        (Sum.inl prMulti) initSt) =
      [LogEntry.group 7, LogEntry.skip 7 DenyReason.alreadyMerged] := by
  have h := c1_predicate_order_short_circuit cfgDefault
    ⟨fun _ => .ok prMulti, fun _ => .ok branchProtected, fun _ => .ok (), []⟩
    prMulti branchProtected rfl
  exact ⟨h.1.trans (by decide), h.2.trans (by decide)⟩

/-! ## Claim C2 -/

/-- Claim C2 (amended): the router dispatches exactly per the spec's table —
branch-protection-rule, push, schedule, manual dispatch and
deployment-status created in success state run the bulk driver over all open
PRs; a completed check-run event that is not this run's own check and whose
conclusion is success or skipped runs the single-PR pipeline for each
associated PR number; every other event (including pull_request,
pull_request_review, status, deployment-status in a non-success state, and
check-run events failing those conditions) performs no PR processing and
emits only a diagnostic: `run` coincides with the spec-side dispatch table
`routerSpec` on every input. -/
theorem c2_router_dispatch (cfg : Config) (remote : Remote) (runId : Nat)
    (ev : Event) (s : St) :
    run cfg remote runId ev s = routerSpec cfg remote runId ev s := by
  cases ev with
  | check_run payload =>
    simp only [run, runInner, routerSpec, withFailureSignal, processCheckRunCompletedEvent]
    by_cases hid : payload.check_run.id = runId
    · simp [hid]
    · by_cases hact : payload.action = "completed"
      · by_cases hcs : payload.check_run.conclusion.getD "" = "success" <;>
          by_cases hsk : payload.check_run.conclusion.getD "" = "skipped" <;>
          simp [hid, hact, hcs, hsk]
      · simp [hid, hact]
  | deployment_status payload =>
    simp only [run, runInner, routerSpec, withFailureSignal, processDeploymentStatusCreated]
    by_cases hst : payload.deployment_status.state = "success"
    · simp [hst]
    · simp [hst]
  | branch_protection_rule => rfl
  | push => rfl
  | schedule => rfl
  | workflow_dispatch => rfl
  | pull_request => rfl
  | pull_request_review => rfl
  | status => rfl
  | other eventName => rfl

/-- Counterexample to C2 as stated: a check-run event with action completed
and conclusion failure, carrying associated PR number 7, results in no
single-PR pipeline run and no merge call at all (the literal claim predicts
the pipeline runs for PR 7 on every completed check-run event). -/
theorem c2_router_dispatch_counterexample :
    processedPrNumbers (run cfgDefault remoteFailing 1
        (Event.check_run ⟨"completed", ⟨42, some "failure", [⟨7⟩]⟩⟩) initSt) = []
    ∧ resultMergeCalls (run cfgDefault remoteFailing 1
        (Event.check_run ⟨"completed", ⟨42, some "failure", [⟨7⟩]⟩⟩) initSt) = [] := by
  decide

/-! ## Claim C3 -/

/-- Claim C3: on a fresh lookup, `doesBranchHaveRequiredChecks` returns true
iff branch protection is enabled and the required-status-checks list is
non-empty, performing exactly one remote branch lookup and storing the fact
in the cache; a second call with the same branch name — even against a
remote whose fact has changed — performs no remote branch lookup and returns
the stored value with the run state unchanged. -/
theorem c3_branch_fact_cache (remote remoteChanged : Remote) (branchName : String)
    (s : St) (b : Branch)
    (hmiss : lookupCache s.cache branchName = none)
    (hb : remote.getBranch branchName = Except.ok b) :
    (branchHasRequiredChecks b = true ↔
      b.protection.enabled = true ∧
        (b.protection.required_status_checks.bind RequiredStatusChecks.checks).getD [] ≠ [])
    ∧ doesBranchHaveRequiredChecks remote branchName s =
        .ok (branchHasRequiredChecks b)
          { s with
            cache := (branchName, branchHasRequiredChecks b) :: s.cache
            branchLookups := s.branchLookups ++ [branchName] }
    ∧ doesBranchHaveRequiredChecks remoteChanged branchName
        { s with
          cache := (branchName, branchHasRequiredChecks b) :: s.cache
          branchLookups := s.branchLookups ++ [branchName] } =
      .ok (branchHasRequiredChecks b)
        { s with
          cache := (branchName, branchHasRequiredChecks b) :: s.cache
          branchLookups := s.branchLookups ++ [branchName] } := by
  refine ⟨?_, doesBranch_miss hmiss hb, doesBranch_hit (by simp [lookupCache])⟩
  simp [branchHasRequiredChecks, List.length_eq_zero]

/-- Witness for C3: branch "main" with `branchProtected` behind a remote
that succeeds, then re-queried against a remote that fails every call. -/
theorem c3_branch_fact_cache_witness :
    (branchHasRequiredChecks branchProtected = true ↔
      branchProtected.protection.enabled = true ∧
        (branchProtected.protection.required_status_checks.bind
          RequiredStatusChecks.checks).getD [] ≠ [])
    ∧ doesBranchHaveRequiredChecks remoteHappy "main" initSt =
        .ok (branchHasRequiredChecks branchProtected)
          { initSt with
            cache := [("main", branchHasRequiredChecks branchProtected)]
            branchLookups := ["main"] }
    ∧ doesBranchHaveRequiredChecks remoteFailing "main"
        { initSt with
          cache := [("main", branchHasRequiredChecks branchProtected)]
          branchLookups := ["main"] } =
      .ok (branchHasRequiredChecks branchProtected)
        { initSt with
          cache := [("main", branchHasRequiredChecks branchProtected)]
          branchLookups := ["main"] } := by
  have h := c3_branch_fact_cache remoteHappy remoteFailing "main" initSt branchProtected
    rfl rfl
  simpa [initSt] using h

/-! ## Claim C4 -/

/-- Claim C4: for a check-run event, no PR is processed unless the check run
is not this run's own check, the action is completed, and the conclusion is
success or skipped — in each failing case the handler returns with exactly
one debug diagnostic appended and the state otherwise untouched; when all
three conditions hold, the handler is exactly the single-PR pipeline run
over the PR numbers listed in the payload. -/
theorem c4_check_run_gating (cfg : Config) (remote : Remote) (runId : Nat)
    (event : CheckRunCompleted) (s : St) :
    (event.check_run.id = runId →
      processCheckRunCompletedEvent cfg remote runId event s =
        .ok () (pushLog s (.debugSkipSelfCheckRun event.check_run.id)))
    ∧ (event.check_run.id ≠ runId → event.action ≠ "completed" →
      processCheckRunCompletedEvent cfg remote runId event s =
        .ok () (pushLog s (.debugSkipCheckRunAction event.action)))
    ∧ (event.check_run.id ≠ runId → event.action = "completed" →
        (["success", "skipped"].contains (event.check_run.conclusion.getD "")) = false →
      processCheckRunCompletedEvent cfg remote runId event s =
        .ok () (pushLog s (.debugSkipCheckRunConclusion event.check_run.conclusion)))
    ∧ (event.check_run.id ≠ runId → event.action = "completed" →
        (["success", "skipped"].contains (event.check_run.conclusion.getD "")) = true →
      processCheckRunCompletedEvent cfg remote runId event s =
        processPrNumbers cfg remote event.check_run.pull_requests s) := by
  refine ⟨fun hid => ?_, fun hid hact => ?_, fun hid hact hconc => ?_,
    fun hid hact hconc => ?_⟩
  · simp only [processCheckRunCompletedEvent]
    rw [if_pos hid]
  · simp only [processCheckRunCompletedEvent]
    rw [if_neg hid, if_pos hact]
  · simp only [processCheckRunCompletedEvent]
    rw [if_neg hid, if_neg (by simp [hact]), if_pos (by rw [hconc]; simp)]
  · simp only [processCheckRunCompletedEvent]
    rw [if_neg hid, if_neg (by simp [hact]), if_neg (not_not_intro hconc)]

/-- Witness for C4: a self-triggered check-run event and a failed-conclusion
check-run event touch no PR; a foreign, completed, successful check-run
event is exactly the pipeline over its associated PR number. -/
theorem c4_check_run_gating_witness :
    processCheckRunCompletedEvent cfgDefault remoteFailing 5
        ⟨"completed", ⟨5, some "success", [⟨3⟩]⟩⟩ initSt =
      .ok () (pushLog initSt (.debugSkipSelfCheckRun 5))
    ∧ processCheckRunCompletedEvent cfgDefault remoteFailing 1
        ⟨"completed", ⟨42, some "failure", [⟨3⟩]⟩⟩ initSt =
      .ok () (pushLog initSt (.debugSkipCheckRunConclusion (some "failure")))
    ∧ processCheckRunCompletedEvent cfgDefault remoteHappy 1
        ⟨"completed", ⟨42, some "success", [⟨3⟩]⟩⟩ initSt =
      processPrNumbers cfgDefault remoteHappy [⟨3⟩] initSt := by
  refine ⟨(c4_check_run_gating cfgDefault remoteFailing 5
      ⟨"completed", ⟨5, some "success", [⟨3⟩]⟩⟩ initSt).1 rfl,
    (c4_check_run_gating cfgDefault remoteFailing 1
      ⟨"completed", ⟨42, some "failure", [⟨3⟩]⟩⟩ initSt).2.2.1 (by decide) rfl (by decide),
    (c4_check_run_gating cfgDefault remoteHappy 1
      ⟨"completed", ⟨42, some "success", [⟨3⟩]⟩⟩ initSt).2.2.2 (by decide) rfl (by decide)⟩

/-! ## Claim C5 -/

theorem char_toNat_ofNat_valid (n : Nat) (h : n < 55296) : (Char.ofNat n).toNat = n := by
  simp [Char.ofNat, Nat.isValidChar, h, Char.ofNatAux, Char.toNat, UInt32.toNat, BitVec.toNat_ofNatLt]

theorem asciiLowerChar_idem (c : Char) : asciiLowerChar (asciiLowerChar c) = asciiLowerChar c := by
  unfold asciiLowerChar
  by_cases h : 65 ≤ c.toNat ∧ c.toNat ≤ 90
  · rw [if_pos h]
    have ht : (Char.ofNat (c.toNat + 32)).toNat = c.toNat + 32 :=
      char_toNat_ofNat_valid _ (by omega)
    rw [if_neg (by rw [ht]; omega)]
  · rw [if_neg h, if_neg h]

theorem map_asciiLowerChar_idem (l : List Char) :
    (l.map asciiLowerChar).map asciiLowerChar = l.map asciiLowerChar := by
  induction l with
  | nil => rfl
  | cons c cs ih => simp [asciiLowerChar_idem, ih]

theorem asciiLower_idem (s : String) : asciiLower (asciiLower s) = asciiLower s := by
  unfold asciiLower
  exact congrArg String.mk (map_asciiLowerChar_idem s.data)

theorem parseInputList_lower {raw l : String} (hl : l ∈ parseInputList raw) :
    asciiLower l = l := by
  simp only [parseInputList, List.mem_filter, List.mem_map] at hl
  obtain ⟨⟨piece, hp, hpe⟩, _⟩ := hl
  rw [← hpe]
  exact asciiLower_idem (String.mk (trimChars piece))

theorem parseInputList_ne_empty {raw l : String} (hl : l ∈ parseInputList raw) :
    l ≠ "" := by
  simp only [parseInputList, List.mem_filter] at hl
  intro he
  rw [he] at hl
  simp at hl

/-- Claim C5: with a non-empty configured required-label set (parsed from a
raw input), a PR passes the label predicate iff every required label has a
case-insensitive match among the PR's label names — so labels containing
only "Ready" fail the requirement set parsed to ready and approved — and
with an empty required-label set the label predicate never denies any PR. -/
theorem c5_label_predicate (raw : String) (prLabels : List Label) (cfg : Config)
    (hc : Bool) (pr : PullRequest)
    (hne : parseInputList raw ≠ []) (hempty : cfg.requiredLabels = []) :
    (hasAllRequiredLabels (parseInputList raw) prLabels = true ↔
      ∀ l ∈ parseInputList raw, ∃ it ∈ prLabels, asciiLower it.name = asciiLower l)
    ∧ hasAllRequiredLabels ["ready", "approved"] [⟨"Ready"⟩] = false
    ∧ verdictOf cfg hc pr ≠ .denied .missingRequiredLabels := by
  refine ⟨?_, by decide, ?_⟩
  · have hforms : hasAllRequiredLabels (parseInputList raw) prLabels = true ↔
        ∀ l ∈ parseInputList raw, ∃ it ∈ prLabels, asciiLower it.name = l := by
      simp [hasAllRequiredLabels, List.all_eq_true, List.any_eq_true]
    refine hforms.trans ⟨fun h l hl => ?_, fun h l hl => ?_⟩
    · obtain ⟨it, hit, heq⟩ := h l hl
      exact ⟨it, hit, heq.trans (parseInputList_lower hl).symm⟩
    · obtain ⟨it, hit, heq⟩ := h l hl
      exact ⟨it, hit, heq.trans (parseInputList_lower hl)⟩
  · unfold verdictOf
    split_ifs <;> simp_all

/-- Witness for C5: raw configuration "ready, approved" against a PR whose
only label is "Ready", and the empty-requirement case on an eligible PR. -/
theorem c5_label_predicate_witness :
    (hasAllRequiredLabels (parseInputList "ready, approved") [⟨"Ready"⟩] = true ↔
      ∀ l ∈ parseInputList "ready, approved",
        ∃ it ∈ ([⟨"Ready"⟩] : List Label), asciiLower it.name = asciiLower l)
    ∧ hasAllRequiredLabels ["ready", "approved"] [⟨"Ready"⟩] = false
    ∧ verdictOf cfgDefault true prEligible ≠ .denied .missingRequiredLabels :=
  c5_label_predicate "ready, approved" [⟨"Ready"⟩] cfgDefault true prEligible
    (by decide) rfl

/-! ## Claim C6 -/

/-- Claim C6: the mergeability predicate rejects a PR only when the flag is
present and explicitly false — a not-mergeable denial implies the flag is
explicitly false — and when the flag is true or absent/unknown the
evaluation is identical to that of the same snapshot with the flag absent,
passing the PR through to the remaining checks. -/
theorem c6_mergeable_predicate (cfg : Config) (hc : Bool) (pr : PullRequest) :
    (verdictOf cfg hc pr = .denied .notMergeable → pr.mergeable = some false)
    ∧ (pr.mergeable ≠ some false →
        verdictOf cfg hc pr = verdictOf cfg hc { pr with mergeable := none })
    ∧ verdictOf cfg hc { pr with mergeable := some true } =
        verdictOf cfg hc { pr with mergeable := none } := by
  obtain ⟨num, base, hd, ma, am, dr, lab, usr, mrg⟩ := pr
  refine ⟨?_, fun hnf => ?_, ?_⟩
  · unfold verdictOf
    split_ifs <;> simp_all
  · rcases mrg with - | b
    · rfl
    · cases b
      · exact absurd rfl hnf
      · dsimp only [verdictOf]
        refine if_congr Iff.rfl rfl (if_congr Iff.rfl rfl (if_congr Iff.rfl rfl
          (if_congr Iff.rfl rfl (if_congr Iff.rfl rfl (if_congr Iff.rfl rfl
            (if_congr (by simp) rfl rfl))))))
  · dsimp only [verdictOf]
    refine if_congr Iff.rfl rfl (if_congr Iff.rfl rfl (if_congr Iff.rfl rfl
      (if_congr Iff.rfl rfl (if_congr Iff.rfl rfl (if_congr Iff.rfl rfl
        (if_congr (by simp) rfl rfl))))))

/-- Witness for C6: an explicitly unmergeable variant of the eligible PR is
recognised, and the eligible PR evaluates identically with the flag true,
absent, or as given. -/
theorem c6_mergeable_predicate_witness :
    ({ prEligible with mergeable := some false } : PullRequest).mergeable = some false
    ∧ verdictOf cfgDefault true prEligible =
        verdictOf cfgDefault true { prEligible with mergeable := none }
    ∧ verdictOf cfgDefault true { prEligible with mergeable := some true } =
        verdictOf cfgDefault true { prEligible with mergeable := none } := by
  have h := c6_mergeable_predicate cfgDefault true prEligible
  have h2 := c6_mergeable_predicate cfgDefault true
    { prEligible with mergeable := some false }
  exact ⟨h2.1 (by decide), h.2.1 (by decide), h.2.2⟩

/-! ## Claim C7 -/

theorem processPr_mergeCalls_denied (cfg : Config) (remote : Remote) (pr : PullRequest)
    (b : Branch) (r : DenyReason)
    (hb : remote.getBranch pr.base.ref = Except.ok b)
    (hden : verdictOf cfg (branchHasRequiredChecks b) pr = .denied r) :
    resultMergeCalls (processPr cfg remote (Sum.inl pr) initSt) = [] := by
  simp only [processPr]
  split_ifs with h1 h2 h3 h4 h5 h6 h7
  · simp [resultMergeCalls, Res.state, pushLog, initSt]
  · simp [resultMergeCalls, Res.state, pushLog, initSt]
  · simp [resultMergeCalls, Res.state, pushLog, initSt]
  · simp [resultMergeCalls, Res.state, pushLog, initSt]
  · simp [resultMergeCalls, Res.state, pushLog, initSt]
  · simp [resultMergeCalls, Res.state, pushLog, initSt]
  · simp [resultMergeCalls, Res.state, pushLog, initSt]
  · rw [doesBranch_miss
      (show lookupCache (pushLog initSt (LogEntry.group pr.number)).cache pr.base.ref = none
        from rfl) hb]
    cases hbc : branchHasRequiredChecks b with
    | false => simp [resultMergeCalls, Res.state, pushLog, initSt]
    | true =>
      rw [verdictOf_approved h1 h2 h3 h4 h5 h6 h7 (by simp [hbc])] at hden
      exact absurd hden (by simp)
  · rw [doesBranch_miss
      (show lookupCache (pushLog initSt (LogEntry.group pr.number)).cache pr.base.ref = none
        from rfl) hb]
    cases hbc : branchHasRequiredChecks b with
    | false => simp [resultMergeCalls, Res.state, pushLog, initSt]
    | true =>
      rw [verdictOf_approved h1 h2 h3 h4 h5 h6 h7 (by simp [hbc])] at hden
      exact absurd hden (by simp)

theorem processPr_mergeCalls_approved_dry (cfg : Config) (remote : Remote)
    (pr : PullRequest) (b : Branch)
    (hb : remote.getBranch pr.base.ref = Except.ok b)
    (happroved : verdictOf cfg (branchHasRequiredChecks b) pr = .approved)
    (hdry : cfg.dryRun = true) :
    resultMergeCalls (processPr cfg remote (Sum.inl pr) initSt) = [] := by
  simp only [processPr]
  split_ifs with h1 h2 h3 h4 h5 h6 h7
  · rw [verdictOf_c1 h1] at happroved; exact absurd happroved (by simp)
  · rw [verdictOf_c2 h1 h2] at happroved; exact absurd happroved (by simp)
  · rw [verdictOf_c3 h1 h2 h3] at happroved; exact absurd happroved (by simp)
  · rw [verdictOf_c4 h1 h2 h3 h4] at happroved; exact absurd happroved (by simp)
  · rw [verdictOf_c5 h1 h2 h3 h4 h5] at happroved; exact absurd happroved (by simp)
  · rw [verdictOf_c6 h1 h2 h3 h4 h5 h6] at happroved; exact absurd happroved (by simp)
  · rw [verdictOf_c7 h1 h2 h3 h4 h5 h6 h7] at happroved; exact absurd happroved (by simp)
  · rw [doesBranch_miss
      (show lookupCache (pushLog initSt (LogEntry.group pr.number)).cache pr.base.ref = none
        from rfl) hb]
    cases hbc : branchHasRequiredChecks b with
    | false =>
      rw [hbc] at happroved
      rw [verdictOf_c8 h1 h2 h3 h4 h5 h6 h7 (show (!false) = true from rfl)] at happroved
      exact absurd happroved (by simp)
    | true => simp [resultMergeCalls, Res.state, pushLog, initSt]

theorem processPr_mergeCalls_approved_live (cfg : Config) (remote : Remote)
    (pr : PullRequest) (b : Branch)
    (hb : remote.getBranch pr.base.ref = Except.ok b)
    (happroved : verdictOf cfg (branchHasRequiredChecks b) pr = .approved)
    (hdry : cfg.dryRun = false) :
    resultMergeCalls (processPr cfg remote (Sum.inl pr) initSt) =
      [mergeCallFor cfg pr.number pr] := by
  simp only [processPr]
  split_ifs with h1 h2 h3 h4 h5 h6 h7 hd
  · rw [verdictOf_c1 h1] at happroved; exact absurd happroved (by simp)
  · rw [verdictOf_c2 h1 h2] at happroved; exact absurd happroved (by simp)
  · rw [verdictOf_c3 h1 h2 h3] at happroved; exact absurd happroved (by simp)
  · rw [verdictOf_c4 h1 h2 h3 h4] at happroved; exact absurd happroved (by simp)
  · rw [verdictOf_c5 h1 h2 h3 h4 h5] at happroved; exact absurd happroved (by simp)
  · rw [verdictOf_c6 h1 h2 h3 h4 h5 h6] at happroved; exact absurd happroved (by simp)
  · rw [verdictOf_c7 h1 h2 h3 h4 h5 h6 h7] at happroved; exact absurd happroved (by simp)
  · rw [hdry] at hd; exact absurd hd (by simp)
  · rw [doesBranch_miss
      (show lookupCache (pushLog initSt (LogEntry.group pr.number)).cache pr.base.ref = none
        from rfl) hb]
    cases hbc : branchHasRequiredChecks b with
    | false =>
      rw [hbc] at happroved
      rw [verdictOf_c8 h1 h2 h3 h4 h5 h6 h7 (show (!false) = true from rfl)] at happroved
      exact absurd happroved (by simp)
    | true =>
      cases hmr : remote.mergePullRequest (mergeCallFor cfg pr.number pr) <;>
        simp [resultMergeCalls, Res.state, pushLog, initSt, hmr]

/-- Claim C7: for every PR reaching an Approved verdict the merging
diagnostic for its number is emitted, and the mutating merge call is issued
iff dry-run is inactive; the call carries the PR's head commit sha as the
expected head and the configured preferred merge method when set (absent
otherwise, leaving the choice to the remote).  In dry-run mode no merge call
occurs at all. -/
theorem c7_merge_executor (cfg : Config) (remote : Remote) (pr : PullRequest) (b : Branch)
    (hb : remote.getBranch pr.base.ref = Except.ok b)
    (happroved : verdictOf cfg (branchHasRequiredChecks b) pr = .approved) :
    LogEntry.merging pr.number ∈ resultLogs (processPr cfg remote (Sum.inl pr) initSt)
    ∧ resultMergeCalls (processPr cfg remote (Sum.inl pr) initSt) =
        (if cfg.dryRun then [] else [mergeCallFor cfg pr.number pr])
    ∧ mergeCallFor cfg pr.number pr =
        { pull_number := pr.number
          sha := pr.head.sha
          merge_method :=
            if cfg.preferredMergeOption.length ≠ 0 then some cfg.preferredMergeOption
            else none } := by
  refine ⟨?_, ?_, rfl⟩
  · rw [processPr_logs cfg remote pr b hb, happroved]
    simp
  · cases hdc : cfg.dryRun with
    | true =>
      rw [processPr_mergeCalls_approved_dry cfg remote pr b hb happroved hdc]
      simp
    | false =>
      rw [processPr_mergeCalls_approved_live cfg remote pr b hb happroved hdc]
      simp

/-- Witness for C7: the eligible PR is merged (one call, head sha "sha1", no
preferred method) under the live config, and under the dry-run config the
merging diagnostic still appears while no call is issued. -/
theorem c7_merge_executor_witness :
    LogEntry.merging 1 ∈
      resultLogs (processPr cfgDefault remoteHappy (Sum.inl prEligible) initSt)
    ∧ resultMergeCalls (processPr cfgDefault remoteHappy (Sum.inl prEligible) initSt) =
        [⟨1, "sha1", none⟩]
    ∧ LogEntry.merging 1 ∈
        resultLogs (processPr cfgDryRun remoteHappy (Sum.inl prEligible) initSt)
    ∧ resultMergeCalls (processPr cfgDryRun remoteHappy (Sum.inl prEligible) initSt) =
        [] := by
  have h1 := c7_merge_executor cfgDefault remoteHappy prEligible branchProtected rfl
    (by decide)
  have h2 := c7_merge_executor cfgDryRun remoteHappy prEligible branchProtected rfl
    (by decide)
  exact ⟨h1.1, h1.2.1.trans (by decide), h2.1, h2.2.1.trans (by decide)⟩

/-! ## Claim C8 -/

theorem processPr_merge_failure (cfg : Config) (remote : Remote) (pr : PullRequest)
    (b : Branch) (e : String)
    (hb : remote.getBranch pr.base.ref = Except.ok b)
    (happroved : verdictOf cfg (branchHasRequiredChecks b) pr = .approved)
    (hdry : cfg.dryRun = false)
    (hmfail : remote.mergePullRequest (mergeCallFor cfg pr.number pr) = Except.error e) :
    processPr cfg remote (Sum.inl pr) initSt =
      .err e ⟨[(pr.base.ref, branchHasRequiredChecks b)],
              [LogEntry.group pr.number, LogEntry.merging pr.number],
              [mergeCallFor cfg pr.number pr], [pr.base.ref]⟩ := by
  simp only [processPr]
  split_ifs with h1 h2 h3 h4 h5 h6 h7 hd
  · rw [verdictOf_c1 h1] at happroved; exact absurd happroved (by simp)
  · rw [verdictOf_c2 h1 h2] at happroved; exact absurd happroved (by simp)
  · rw [verdictOf_c3 h1 h2 h3] at happroved; exact absurd happroved (by simp)
  · rw [verdictOf_c4 h1 h2 h3 h4] at happroved; exact absurd happroved (by simp)
  · rw [verdictOf_c5 h1 h2 h3 h4 h5] at happroved; exact absurd happroved (by simp)
  · rw [verdictOf_c6 h1 h2 h3 h4 h5 h6] at happroved; exact absurd happroved (by simp)
  · rw [verdictOf_c7 h1 h2 h3 h4 h5 h6 h7] at happroved; exact absurd happroved (by simp)
  · rw [hdry] at hd; exact absurd hd (by simp)
  · rw [doesBranch_miss
      (show lookupCache (pushLog initSt (LogEntry.group pr.number)).cache pr.base.ref = none
        from rfl) hb]
    cases hbc : branchHasRequiredChecks b with
    | false =>
      rw [hbc] at happroved
      rw [verdictOf_c8 h1 h2 h3 h4 h5 h6 h7 (show (!false) = true from rfl)] at happroved
      exact absurd happroved (by simp)
    | true =>
      rw [hmfail]
      simp [pushLog, initSt]

/-- Claim C8: a remote call failure at any of the four call sites — PR
fetch, branch lookup, page listing, merge — propagates out of the
PR-processing pipeline as an error carrying exactly the effects performed so
far (no retry), later PRs in the same sequence are not processed, and the
top-level run reports the failure (`setFailed`) while rethrowing, so the
run's outcome is failed. -/
theorem c8_remote_failure_propagation (cfg : Config) (remote : Remote) (runId : Nat)
    (n : Nat) (rest : List CheckRunPr) (e : String) (s : St)
    (pr : PullRequest) (b : Branch) (morePrs : List PullRequest)
    (pages : List (Except String (List PullRequest)))
    (branchName : String) (s2 : St)
    (hfetch : remote.getPullRequest n = Except.error e)
    (hmiss : lookupCache s2.cache branchName = none)
    (hbfail : remote.getBranch branchName = Except.error e)
    (hb : remote.getBranch pr.base.ref = Except.ok b)
    (happroved : verdictOf cfg (branchHasRequiredChecks b) pr = .approved)
    (hdry : cfg.dryRun = false)
    (hmfail : remote.mergePullRequest (mergeCallFor cfg pr.number pr) = Except.error e) :
    processPr cfg remote (Sum.inr n) s = .err e (pushLog s (.group n))
    ∧ processPrNumbers cfg remote (⟨n⟩ :: rest) s = .err e (pushLog s (.group n))
    ∧ doesBranchHaveRequiredChecks remote branchName s2 =
        .err e { s2 with branchLookups := s2.branchLookups ++ [branchName] }
    ∧ processPages cfg remote (Except.error e :: pages) s = .err e s
    ∧ processPr cfg remote (Sum.inl pr) initSt =
        .err e ⟨[(pr.base.ref, branchHasRequiredChecks b)],
                [LogEntry.group pr.number, LogEntry.merging pr.number],
                [mergeCallFor cfg pr.number pr], [pr.base.ref]⟩
    ∧ processPrs cfg remote (pr :: morePrs) initSt =
        .err e ⟨[(pr.base.ref, branchHasRequiredChecks b)],
                [LogEntry.group pr.number, LogEntry.merging pr.number],
                [mergeCallFor cfg pr.number pr], [pr.base.ref]⟩
    ∧ (∀ ev : Event, ∀ s4 : St, ∀ e2 : String, ∀ s5 : St,
        runInner cfg remote runId ev s4 = .err e2 s5 →
        run cfg remote runId ev s4 = .err e2 (pushLog s5 (.setFailed e2))) := by
  have hfetchPr : processPr cfg remote (Sum.inr n) s = .err e (pushLog s (.group n)) := by
    simp [processPr, hfetch]
  have hmerge := processPr_merge_failure cfg remote pr b e hb happroved hdry hmfail
  refine ⟨hfetchPr, ?_, ?_, ?_, hmerge, ?_, ?_⟩
  · simp only [processPrNumbers]
    rw [hfetchPr]
  · simp [doesBranchHaveRequiredChecks, hmiss, hbfail]
  · simp [processPages]
  · simp only [processPrs]
    rw [hmerge]
  · intro ev s4 e2 s5 h
    simp [run, h]

/-- Witness for C8 against a remote that fails everything except the lookup
of branch "main": fetch failure, pipeline cut-off, branch-lookup failure,
listing failure, merge failure, and the failed run outcome, all at concrete
inputs. -/
theorem c8_remote_failure_propagation_witness :
    processPr cfgDefault remoteMixed (Sum.inr 3) initSt =
      .err "remote failure" (pushLog initSt (.group 3))
    ∧ processPrNumbers cfgDefault remoteMixed [⟨3⟩, ⟨4⟩] initSt =
        .err "remote failure" (pushLog initSt (.group 3))
    ∧ doesBranchHaveRequiredChecks remoteMixed "dev" initSt =
        .err "remote failure" { initSt with branchLookups := ["dev"] }
    ∧ processPages cfgDefault remoteMixed [Except.error "remote failure"] initSt =
        .err "remote failure" initSt
    ∧ processPr cfgDefault remoteMixed (Sum.inl prEligible) initSt =
        .err "remote failure" ⟨[("main", branchHasRequiredChecks branchProtected)],
          [LogEntry.group 1, LogEntry.merging 1],
          [mergeCallFor cfgDefault 1 prEligible], ["main"]⟩
    ∧ processPrs cfgDefault remoteMixed [prEligible, prMulti] initSt =
        .err "remote failure" ⟨[("main", branchHasRequiredChecks branchProtected)],
          [LogEntry.group 1, LogEntry.merging 1],
          [mergeCallFor cfgDefault 1 prEligible], ["main"]⟩
    ∧ run cfgDefault remoteMixed 1 Event.push initSt =
        .err "remote failure" (pushLog initSt (.setFailed "remote failure")) := by
  have h := c8_remote_failure_propagation cfgDefault remoteMixed 1 3 [⟨4⟩]
    "remote failure" initSt prEligible branchProtected [prMulti] [] "dev" initSt
    rfl rfl rfl rfl (by decide) rfl rfl
  exact ⟨h.1, h.2.1, h.2.2.1, h.2.2.2.1, h.2.2.2.2.1, h.2.2.2.2.2.1,
    h.2.2.2.2.2.2 Event.push initSt "remote failure" initSt (by decide)⟩

/-! ## Claim C9 -/

/-- Claim C9 (amended): for every PR snapshot whose head repository field is
absent, the first predicate treats the head repository identity as the empty
string; provided the base repository identity is non-empty (as every real
repository URL is), this differs from the base identity and the PR is denied
with the different-repositories reason regardless of its other attributes. -/
theorem c9_absent_head_repo (cfg : Config) (hc : Bool) (pr : PullRequest)
    (hnone : pr.head.repo = none) (hbase : pr.base.repo.html_url ≠ "") :
    headRepoUrl pr = "" ∧ verdictOf cfg hc pr = .denied .differentRepos := by
  have hurl : headRepoUrl pr = "" := by simp [headRepoUrl, hnone]
  exact ⟨hurl, verdictOf_c1 (by rw [hurl]; exact hbase)⟩

/-- Counterexample to C9 as stated: a degenerate snapshot whose head
repository is absent but whose base repository identity is the empty string
is not denied for the different-repositories reason — it is approved — so
the denial does not hold regardless of the other attributes. -/
theorem c9_absent_head_repo_counterexample :
    prNoBaseUrl.head.repo = none
    ∧ verdictOf cfgDefault true prNoBaseUrl = Verdict.approved
    ∧ verdictOf cfgDefault true prNoBaseUrl ≠ Verdict.denied DenyReason.differentRepos := by
  decide

/-- Witness for C9 at the eligible PR with its head repository removed. -/
theorem c9_absent_head_repo_witness :
    headRepoUrl { prEligible with head := ⟨none, "sha1"⟩ } = ""
    ∧ verdictOf cfgDefault true { prEligible with head := ⟨none, "sha1"⟩ } =
        .denied .differentRepos :=
  c9_absent_head_repo cfgDefault true { prEligible with head := ⟨none, "sha1"⟩ }
    rfl (by decide)

/-! ## Claim C10 -/

/-- Claim C10: with a non-empty configured allowed-author set (parsed, so
trimmed and free of empty entries), a PR whose author user or login field is
absent gets the empty-string login, which is never a member of the parsed
set, so whenever the author predicate is reached (predicates one to five
passing) the PR is denied as author-not-allowed. -/
theorem c10_absent_author (raw : String) (cfg : Config) (hc : Bool) (pr : PullRequest)
    (hauthors : cfg.authors = parseInputList raw)
    (hne : cfg.authors ≠ [])
    (huser : pr.user.bind User.login = none)
    (h1 : ¬pr.base.repo.html_url ≠ headRepoUrl pr)
    (h2 : ¬strTruthy pr.merged_at = true)
    (h3 : ¬pr.auto_merge.isSome = true)
    (h4 : ¬pr.draft.getD false = true)
    (h5 : ¬(cfg.requiredLabels.length ≠ 0 ∧
        hasAllRequiredLabels cfg.requiredLabels pr.labels = false)) :
    authorLogin pr = ""
    ∧ cfg.authors.contains "" = false
    ∧ verdictOf cfg hc pr = .denied .authorNotAllowed := by
  have hlogin : authorLogin pr = "" := by simp [authorLogin, huser]
  have hnotmem : "" ∉ cfg.authors := by
    rw [hauthors]
    intro hmem
    exact parseInputList_ne_empty hmem rfl
  have hcontains : cfg.authors.contains "" = false := by simpa using hnotmem
  refine ⟨hlogin, hcontains, ?_⟩
  exact verdictOf_c6 h1 h2 h3 h4 h5
    ⟨fun h => hne (List.length_eq_zero.mp h), by rw [hlogin]; exact hcontains⟩

/-- Witness for C10: allowed authors parsed from "alice", a PR with no user
record. -/
theorem c10_absent_author_witness :
    authorLogin { prEligible with user := none } = ""
    ∧ (Config.mk [] (parseInputList "alice") "" false).authors.contains "" = false
    ∧ verdictOf ⟨[], parseInputList "alice", "", false⟩ true
        { prEligible with user := none } = .denied .authorNotAllowed :=
  c10_absent_author "alice" ⟨[], parseInputList "alice", "", false⟩ true
    { prEligible with user := none }
    rfl (by decide) rfl (by decide) (by decide) (by decide) (by decide) (by decide)
